import Mathlib

/-!
Shallow embedding of the water-tank controller in `src/main.py`
(class `SystemController`, class `FlowSensor`, and the per-second body of
`SystemController.main_loop`), together with theorems checking the
natural-language specification against it.

Modelling conventions:
* Python floats are embedded as `Rat` (every arithmetic operation the
  claims touch is exact at the inputs involved).
* Timestamps (`time.time()`) are embedded as `Int` seconds; the code uses
  `0` as the "timer not running" sentinel for `flow_stop_timer_start`.
* Hardware pin writes (`self.valve_pin.value`, `self.motor_pin.value`)
  mirror the booleans `valve_on` / `motor_on` and are not modelled
  separately; `print` logging is dropped.
* File persistence (`save_config` / `save_log`) is modelled as always
  succeeding: the in-memory fields are the authoritative state.
* `ujson.loads` is an external library; `process_ble_command` takes the
  decoder as an explicit parameter `decodeJson` returning `none` exactly
  when the Python call would raise `ValueError`.
-/

namespace WaterCtl

/-- The mutable state of `SystemController` that the control logic reads
and writes: actuator flags, the scheduled-run flag, the stall timer,
the two schedule tables (lists of `[hour, minute]` int lists, as stored
by Python), the accumulated litres, and the configuration values
`K_FACTOR` and `FLOW_STOP_TIMEOUT`. -/
structure SCState where
  valve_on : Bool
  motor_on : Bool
  scheduled_run_active : Bool
  flow_stop_timer_start : Int
  weekday_schedule : List (List Int)
  weekend_schedule : List (List Int)
  flow_liters_total : Rat
  k_factor : Rat
  flow_stop_timeout : Int
deriving DecidableEq, Repr

/-- Startup state of `SystemController.__init__` under `DEFAULT_CONFIG`:
actuators off, no scheduled run, stall timer at the zero sentinel,
`SCHEDULED_WEEKDAY = [[7,0],[12,0],[19,0]]`,
`SCHEDULED_WEEKEND = [[8,0],[12,0],[19,0]]`, `K_FACTOR = 450.0`,
`FLOW_STOP_TIMEOUT = 5`. -/
def initState : SCState :=
  { valve_on := false
    motor_on := false
    scheduled_run_active := false
    flow_stop_timer_start := 0
    weekday_schedule := [[7, 0], [12, 0], [19, 0]]
    weekend_schedule := [[8, 0], [12, 0], [19, 0]]
    flow_liters_total := 0
    k_factor := 450
    flow_stop_timeout := 5 }

/-- `SystemController.set_motor` (src/main.py lines 357-366): a request to
turn the motor on while the valve is on is refused (early return, nothing
changes); otherwise the motor flag is set to the requested state. -/
def set_motor (state : Bool) (s : SCState) : SCState :=
  if state = true ∧ s.valve_on = true then s
  else { s with motor_on := state }

/-- `SystemController.set_valve` (src/main.py lines 368-382): opening the
valve while the motor is on first calls `set_motor False`; the valve flag
is then set to the requested state; closing the valve clears
`scheduled_run_active`. -/
def set_valve (state : Bool) (s : SCState) : SCState :=
  let s1 := if state = true ∧ s.motor_on = true then set_motor false s else s
  let s2 := { s1 with valve_on := state }
  if state = false then { s2 with scheduled_run_active := false } else s2

/-- `SystemController.check_scheduled_run` (src/main.py lines 386-411):
false when the valve is already on or the second is not 0; otherwise picks
the weekday table for weekday 0-4, the weekend table for 5-6, no table
otherwise, and fires when the table is truthy (non-empty, Python
`if target_schedule and ...`) and contains `[hour, minute]`. -/
def check_scheduled_run (s : SCState) (hr mi sec wd : Int) : Bool :=
  if s.valve_on = true ∨ sec ≠ 0 then false
  else
    let target : Option (List (List Int)) :=
      if 0 ≤ wd ∧ wd ≤ 4 then some s.weekday_schedule
      else if 5 ≤ wd ∧ wd ≤ 6 then some s.weekend_schedule
      else none
    match target with
    | some tbl => decide (tbl ≠ [] ∧ [hr, mi] ∈ tbl)
    | none => false

/-- `FlowSensor.calculate_flow` (src/main.py lines 157-167): returns
`(flow_rate_lpm, liters_added)` with `liters_added = pulses / k_factor`
and `flow_rate_lpm = (pulses / seconds_passed) * (60 / k_factor)` when
`seconds_passed > 0 and pulses > 0`, else `0.0`. -/
def calculate_flow (k_factor : Rat) (pulses : Int) (seconds_passed : Rat) : Rat × Rat :=
  let liters_added : Rat := (pulses : Rat) / k_factor
  let flow_rate_lpm : Rat :=
    if 0 < seconds_passed ∧ 0 < pulses then
      ((pulses : Rat) / seconds_passed) * (60 / k_factor)
    else 0
  (flow_rate_lpm, liters_added)

/-- Step 1 of the per-second body of `main_loop` (src/main.py lines
526-528): drain the pulse counter and add `liters_added` to the running
total. -/
def accum_flow (pulses : Int) (s : SCState) : SCState :=
  { s with flow_liters_total :=
      s.flow_liters_total + (calculate_flow s.k_factor pulses 1).2 }

/-- Step 3 of the per-second body of `main_loop` (src/main.py lines
535-540): if `check_scheduled_run` fires, open the valve and, the valve
being on, set `scheduled_run_active` and zero the stall timer. -/
def sched_activation (hr mi sec wd : Int) (s : SCState) : SCState :=
  if check_scheduled_run s hr mi sec wd = true then
    let s1 := set_valve true s
    if s1.valve_on = true then
      { s1 with scheduled_run_active := true, flow_stop_timer_start := 0 }
    else s1
  else s

/-- Step 4 of the per-second body of `main_loop` (src/main.py lines
542-558), the no-flow auto-shutoff: only when the valve is on and a
scheduled run is active; flow below 0.01 L/min starts the timer on first
observation (`flow_stop_timer_start := now`), and on a later tick closes
the valve and zeroes the timer once `now - start >= FLOW_STOP_TIMEOUT`;
any flow at or above 0.01 zeroes a running timer. -/
def stall_guard (flow_rate_lpm : Rat) (now : Int) (s : SCState) : SCState :=
  if s.valve_on = true ∧ s.scheduled_run_active = true then
    if flow_rate_lpm < 1 / 100 then
      if s.flow_stop_timer_start = 0 then { s with flow_stop_timer_start := now }
      else if s.flow_stop_timeout ≤ now - s.flow_stop_timer_start then
        { set_valve false s with flow_stop_timer_start := 0 }
      else s
    else
      if s.flow_stop_timer_start ≠ 0 then { s with flow_stop_timer_start := 0 }
      else s
  else s

/-- One per-second iteration of `SystemController.main_loop`
(src/main.py lines 522-558): flow accumulation, then scheduled
activation, then the stall guard, in the source's order. Inputs are the
local clock fields, the wall-clock timestamp and the drained pulse
count. -/
def tick (hr mi sec wd now pulses : Int) (s : SCState) : SCState :=
  stall_guard (calculate_flow s.k_factor pulses 1).1 now
    (sched_activation hr mi sec wd (accum_flow pulses s))

/-- A decoded JSON value, as produced by `ujson.loads` for the payload of
a `SET_SCHEDULE` command: an integer, a string, or an array. -/
inductive JVal where
  | int (n : Int)
  | str (s : String)
  | arr (l : List JVal)

/-- Python `isinstance(v, int)` on a decoded JSON value. -/
def JVal.isInt : JVal → Bool
  | .int _ => true
  | _ => false

/-- The integer held by a decoded JSON value (0 for non-integers; only
applied to values that passed `validSchedule`). -/
def JVal.toInt : JVal → Int
  | .int n => n
  | _ => 0

/-- The schedule-shape validation inlined in the `SET_SCHEDULE` branch of
`process_ble_command` (src/main.py lines 444-445): the decoded value must
be a list, each element a list of exactly 2 elements, all integers. There
is no range check on the hour or minute values. -/
def validSchedule : JVal → Bool
  | .arr l => l.all fun t =>
      match t with
      | .arr u => u.length = 2 ∧ u.all JVal.isInt
      | _ => false
  | _ => false

/-- The stored form of a validated schedule value: the Python code keeps
the decoded list of `[hour, minute]` lists as-is. -/
def toSchedule : JVal → List (List Int)
  | .arr l => l.map fun t =>
      match t with
      | .arr u => u.map JVal.toInt
      | _ => []
  | _ => []

/-- Python `str.strip()`: drop leading and trailing whitespace
(structural implementation over the character list). -/
def pyStrip (s : String) : String :=
  ⟨((s.data.dropWhile Char.isWhitespace).reverse.dropWhile Char.isWhitespace).reverse⟩

/-- Python `str.upper()` for the ASCII commands the controller handles. -/
def pyUpper (s : String) : String := ⟨s.data.map Char.toUpper⟩

/-- Splitting a character list on every single space, Python
`str.split(' ')`: consecutive separators yield empty parts. -/
def pySplitSpace : List Char → List (List Char)
  | [] => [[]]
  | c :: rest =>
    let r := pySplitSpace rest
    if c = ' ' then [] :: r
    else
      match r with
      | h :: t => (c :: h) :: t
      | [] => [[c]]

/-- Python `command.split(' ', 2)`: split on single spaces, at most
twice, the third part keeping any further spaces. -/
def pySplit2 (s : String) : List String :=
  match (pySplitSpace s.data).map (fun l => (⟨l⟩ : String)) with
  | a :: b :: c :: rest => [a, b, String.intercalate " " (c :: rest)]
  | parts => parts

/-- `SystemController.process_ble_command` (src/main.py lines 414-481).
The input is the received command as a string (`command_bytes.decode()`);
`decodeJson` stands for the external `ujson.loads`, returning `none`
exactly when Python would raise `ValueError`. Returns the response
written back over BLE (`none` for the `STATUS` branch, which returns
`None`) and the updated state. `save_config`/`save_log` are modelled as
succeeding, so the `SET_SCHEDULE` success path updates the named table
and the reloaded schedule fields agree with the stored config. -/
def process_ble_command (decodeJson : String → Option JVal)
    (command_bytes : String) (s : SCState) : Option String × SCState :=
  let command := pyUpper (pyStrip command_bytes)
  let parts := pySplit2 command
  if parts = [] ∨ parts.headD "" = "" then
    (some "ERR: No command", s)
  else if parts.headD "" = "VALVE" ∧ parts.length = 2 then
    (some "OK", set_valve (parts.getD 1 "" = "ON") s)
  else if parts.headD "" = "MOTOR" ∧ parts.length = 2 then
    (some "OK", set_motor (parts.getD 1 "" = "ON") s)
  else if parts.headD "" = "SET_SCHEDULE" ∧ parts.length = 3 then
    let schedule_type := parts.getD 1 ""
    let schedule_json_str := parts.getD 2 ""
    if schedule_type ≠ "WEEKDAY" ∧ schedule_type ≠ "WEEKEND" then
      (some "ERR: Tipo de horario invalido. Use WEEKDAY o WEEKEND.", s)
    else
      match decodeJson schedule_json_str with
      | none => (some "ERR: JSON invalido en el horario.", s)
      | some new_schedule =>
        if validSchedule new_schedule = false then
          (some "ERR: Formato JSON de horario invalido. Use [[H, M], [H, M]].", s)
        else
          let tbl := toSchedule new_schedule
          let s2 := if schedule_type = "WEEKDAY" then { s with weekday_schedule := tbl }
            else { s with weekend_schedule := tbl }
          (some ("OK: Horario " ++ schedule_type ++ " actualizado y guardado."), s2)
  else if parts.headD "" = "STATUS" then
    (none, s)
  else if parts.headD "" = "RESET_FLOW" then
    (some "OK: FLOW_TOTAL reset to 0.0", { s with flow_liters_total := 0 })
  else
    (some "ERR: Comando desconocido o formato incorrecto", s)

/-- An actuator request, as issued by the remote command collaborator:
`set_valve` or `set_motor` with the requested boolean. -/
inductive Req where
  | valveReq (b : Bool)
  | motorReq (b : Bool)
deriving DecidableEq, Repr

/-- Apply one actuator request to the controller state. -/
def applyReq : Req → SCState → SCState
  | .valveReq b, s => set_valve b s
  | .motorReq b, s => set_motor b s

/-- Run a finite sequence of actuator requests, first to last. -/
def runReqs (reqs : List Req) (s : SCState) : SCState :=
  reqs.foldl (fun s r => applyReq r s) s

/-- One externally visible event of the running system: a per-second
control-loop tick (with its clock fields, timestamp and drained pulse
count) or a received BLE command string. -/
inductive Ev where
  | tickEv (hr mi sec wd now pulses : Int)
  | bleEv (cmd : String)

/-- Apply one event to the controller state. -/
def stepEv (decodeJson : String → Option JVal) : Ev → SCState → SCState
  | .tickEv hr mi sec wd now pulses, s => tick hr mi sec wd now pulses s
  | .bleEv cmd, s => (process_ble_command decodeJson cmd s).2

/-- Run a finite sequence of events, first to last. -/
def runEvs (decodeJson : String → Option JVal) (evs : List Ev) (s : SCState) : SCState :=
  evs.foldl (fun s e => stepEv decodeJson e s) s

/-- A reachable state the corrected claims use: the valve opened by a
remote command (no scheduled run, timer idle). -/
def valveOpenState : SCState := { initState with valve_on := true }

/-- A state in mid-stall-countdown: scheduled run active, valve open,
stall timer started at timestamp 100. -/
def stalledState : SCState :=
  { initState with
    valve_on := true
    scheduled_run_active := true
    flow_stop_timer_start := 100 }

/-!  Basic equations of the two actuator methods.  -/

theorem set_motor_false_eq (s : SCState) :
    set_motor false s = { s with motor_on := false } := by
  simp [set_motor]

theorem set_motor_true_valve_open (s : SCState) (h : s.valve_on = true) :
    set_motor true s = s := by
  simp [set_motor, h]

theorem set_motor_valve (b : Bool) (s : SCState) :
    (set_motor b s).valve_on = s.valve_on := by
  unfold set_motor; split <;> rfl

theorem set_motor_sched (b : Bool) (s : SCState) :
    (set_motor b s).scheduled_run_active = s.scheduled_run_active := by
  unfold set_motor; split <;> rfl

theorem set_motor_timer (b : Bool) (s : SCState) :
    (set_motor b s).flow_stop_timer_start = s.flow_stop_timer_start := by
  unfold set_motor; split <;> rfl

theorem set_valve_false_eq (s : SCState) :
    set_valve false s = { s with valve_on := false, scheduled_run_active := false } := by
  simp [set_valve]

theorem set_valve_true_eq (s : SCState) :
    set_valve true s = { s with valve_on := true, motor_on := false } := by
  obtain ⟨v, m, sr, ts, wds, wes, tot, k, tmo⟩ := s
  cases m <;> simp [set_valve, set_motor]

/-!  Preservation of the valve/motor interlock.  -/

theorem set_motor_interlock (b : Bool) (s : SCState)
    (h : (s.valve_on && s.motor_on) = false) :
    ((set_motor b s).valve_on && (set_motor b s).motor_on) = false := by
  obtain ⟨v, m, sr, ts, wds, wes, tot, k, tmo⟩ := s
  cases b <;> cases v <;> simp_all [set_motor]

theorem set_valve_interlock (b : Bool) (s : SCState) :
    ((set_valve b s).valve_on && (set_valve b s).motor_on) = false := by
  cases b
  · simp [set_valve_false_eq]
  · simp [set_valve_true_eq]

theorem runReqs_interlock_aux : ∀ (reqs : List Req) (s : SCState),
    (s.valve_on && s.motor_on) = false →
    ((runReqs reqs s).valve_on && (runReqs reqs s).motor_on) = false := by
  intro reqs
  induction reqs with
  | nil => intro s h; simpa [runReqs] using h
  | cons r rs ih =>
    intro s h
    have h2 : ((applyReq r s).valve_on && (applyReq r s).motor_on) = false := by
      cases r with
      | valveReq b => exact set_valve_interlock b s
      | motorReq b => exact set_motor_interlock b s h
    exact ih (applyReq r s) h2

/-- C1: for every finite sequence of `set_valve`/`set_motor` calls
starting from the initial state (valve closed, motor off), the state
sampled between any two calls never has `valve_on` and `motor_on`
simultaneously true. -/
theorem interlock_never_violated (reqs : List Req) :
    ((runReqs reqs initState).valve_on && (runReqs reqs initState).motor_on) = false :=
  runReqs_interlock_aux reqs initState (by decide)

/-- C5: in every state reachable by actuator requests from the initial
state in which the valve is open, `set_motor True` is a complete no-op:
the motor stays off, the valve stays open, and the state is unchanged
(the motor request never implicitly closes the valve and proceeds). -/
theorem motor_request_rejected_when_valve_open (reqs : List Req)
    (h : (runReqs reqs initState).valve_on = true) :
    set_motor true (runReqs reqs initState) = runReqs reqs initState ∧
    (set_motor true (runReqs reqs initState)).motor_on = false ∧
    (set_motor true (runReqs reqs initState)).valve_on = true := by
  have hinv := runReqs_interlock_aux reqs initState (by decide)
  rw [h] at hinv
  have hm : (runReqs reqs initState).motor_on = false := by simpa using hinv
  have hid := set_motor_true_valve_open _ h
  exact ⟨hid, by rw [hid]; exact hm, by rw [hid]; exact h⟩

/-- Witness for C5: after the single request `set_valve True`, the valve
is open and a `set_motor True` request leaves the motor off. -/
theorem motor_request_rejected_when_valve_open_w :
    (runReqs [Req.valveReq true] initState).valve_on = true ∧
    (set_motor true (runReqs [Req.valveReq true] initState)).motor_on = false :=
  ⟨by decide, (motor_request_rejected_when_valve_open [Req.valveReq true] (by decide)).2.1⟩

/-- C6: for every state with the motor on, `set_valve True` synchronously
turns the motor off and opens the valve: after the call `motor_on` is
false and `valve_on` is true. -/
theorem valve_request_stops_motor_first (s : SCState) (_h : s.motor_on = true) :
    (set_valve true s).motor_on = false ∧ (set_valve true s).valve_on = true := by
  simp [set_valve_true_eq]

/-- Witness for C6: the motor-running state with the motor on. -/
theorem valve_request_stops_motor_first_w :
    ({ initState with motor_on := true } : SCState).motor_on = true ∧
    ((set_valve true { initState with motor_on := true }).motor_on = false ∧
     (set_valve true { initState with motor_on := true }).valve_on = true) :=
  ⟨by decide, valve_request_stops_motor_first { initState with motor_on := true } (by decide)⟩

/-!  Preservation of `scheduled_run_active → valve_on` by every
transition of the system.  -/

theorem set_motor_schedInv (b : Bool) (s : SCState)
    (h : (s.scheduled_run_active && !s.valve_on) = false) :
    ((set_motor b s).scheduled_run_active && !(set_motor b s).valve_on) = false := by
  rw [set_motor_sched, set_motor_valve]; exact h

theorem set_valve_schedInv (b : Bool) (s : SCState) :
    ((set_valve b s).scheduled_run_active && !(set_valve b s).valve_on) = false := by
  cases b
  · simp [set_valve_false_eq]
  · simp [set_valve_true_eq]

theorem accum_flow_schedInv (pulses : Int) (s : SCState)
    (h : (s.scheduled_run_active && !s.valve_on) = false) :
    ((accum_flow pulses s).scheduled_run_active && !(accum_flow pulses s).valve_on) = false := by
  simpa [accum_flow] using h

theorem sched_activation_schedInv (hr mi sec wd : Int) (s : SCState)
    (h : (s.scheduled_run_active && !s.valve_on) = false) :
    ((sched_activation hr mi sec wd s).scheduled_run_active &&
      !(sched_activation hr mi sec wd s).valve_on) = false := by
  unfold sched_activation
  split
  · simp [set_valve_true_eq]
  · exact h

theorem stall_guard_schedInv (flow : Rat) (now : Int) (s : SCState)
    (h : (s.scheduled_run_active && !s.valve_on) = false) :
    ((stall_guard flow now s).scheduled_run_active &&
      !(stall_guard flow now s).valve_on) = false := by
  unfold stall_guard
  split
  · split
    · split
      · simpa using h
      · split
        · simp [set_valve_false_eq]
        · exact h
    · split
      · simpa using h
      · exact h
  · exact h

theorem tick_schedInv (hr mi sec wd now pulses : Int) (s : SCState)
    (h : (s.scheduled_run_active && !s.valve_on) = false) :
    ((tick hr mi sec wd now pulses s).scheduled_run_active &&
      !(tick hr mi sec wd now pulses s).valve_on) = false := by
  unfold tick
  exact stall_guard_schedInv _ _ _
    (sched_activation_schedInv _ _ _ _ _ (accum_flow_schedInv _ _ h))

theorem process_ble_schedInv (decodeJson : String → Option JVal)
    (cmd : String) (s : SCState)
    (h : (s.scheduled_run_active && !s.valve_on) = false) :
    ((process_ble_command decodeJson cmd s).2.scheduled_run_active &&
      !(process_ble_command decodeJson cmd s).2.valve_on) = false := by
  unfold process_ble_command
  dsimp only
  repeat' split
  all_goals first
    | exact h
    | exact set_valve_schedInv _ _
    | exact set_motor_schedInv _ _ h

theorem runEvs_schedInv_aux : ∀ (evs : List Ev)
    (decodeJson : String → Option JVal) (s : SCState),
    (s.scheduled_run_active && !s.valve_on) = false →
    ((runEvs decodeJson evs s).scheduled_run_active &&
      !(runEvs decodeJson evs s).valve_on) = false := by
  intro evs
  induction evs with
  | nil => intro dec s h; simpa [runEvs] using h
  | cons e es ih =>
    intro dec s h
    have h2 : ((stepEv dec e s).scheduled_run_active && !(stepEv dec e s).valve_on) = false := by
      cases e with
      | tickEv hr mi sec wd now pulses => exact tick_schedInv hr mi sec wd now pulses s h
      | bleEv cmd => exact process_ble_schedInv dec cmd s h
    exact ih dec (stepEv dec e s) h2

/-- C10: in every state reachable from the initial state by any sequence
of control-loop ticks and remote BLE commands, `scheduled_run_active`
implies `valve_on`: the flag is set only immediately after a successful
scheduled valve open, and every transition that closes the valve also
clears it. -/
theorem scheduled_active_implies_valve_open (decodeJson : String → Option JVal)
    (evs : List Ev) :
    ((runEvs decodeJson evs initState).scheduled_run_active &&
      !(runEvs decodeJson evs initState).valve_on) = false :=
  runEvs_schedInv_aux evs decodeJson initState (by decide)

/-!  The scheduler predicate.  -/

theorem truthy_mem_iff (tbl : List (List Int)) (x : List Int) :
    (tbl ≠ [] ∧ x ∈ tbl) ↔ x ∈ tbl :=
  ⟨And.right, fun hm => ⟨List.ne_nil_of_mem hm, hm⟩⟩

/-- C7: for every local time with weekday in 0..6 and every state,
`check_scheduled_run` returns true iff the second is 0, the valve is
closed, and `[hour, minute]` is in the weekday table for weekday 0-4,
or in the weekend table for weekday 5-6. -/
theorem check_scheduled_run_spec (s : SCState) (hr mi sec wd : Int)
    (h0 : 0 ≤ wd) (h6 : wd ≤ 6) :
    (check_scheduled_run s hr mi sec wd = true ↔
      (sec = 0 ∧ s.valve_on = false ∧
        [hr, mi] ∈ (if wd ≤ 4 then s.weekday_schedule else s.weekend_schedule))) := by
  unfold check_scheduled_run
  by_cases hv : s.valve_on = true
  · simp [hv]
  · have hv' : s.valve_on = false := by simpa using hv
    by_cases hs : sec = 0
    · by_cases hw : wd ≤ 4
      · have hwd : 0 ≤ wd ∧ wd ≤ 4 := ⟨h0, hw⟩
        simp [hv', hs, hwd, hw, truthy_mem_iff]
      · have hwe : 5 ≤ wd ∧ wd ≤ 6 := ⟨by omega, h6⟩
        simp [hv', hs, hw, hwe, truthy_mem_iff]
    · simp [hv', hs]

/-- Witness for C7: at Monday 07:00:00 with the valve closed, the default
weekday table `[[7,0],[12,0],[19,0]]` fires the scheduler. -/
theorem check_scheduled_run_spec_w :
    (0 : Int) ≤ 0 ∧ (0 : Int) ≤ 6 ∧
    (check_scheduled_run initState 7 0 0 0 = true ↔
      ((0 : Int) = 0 ∧ initState.valve_on = false ∧
        [7, 0] ∈ (if (0 : Int) ≤ 4 then initState.weekday_schedule
          else initState.weekend_schedule))) :=
  ⟨by decide, by decide, check_scheduled_run_spec initState 7 0 0 0 (by decide) (by decide)⟩

/-!  Behaviour of the stall guard inside a tick.  -/

theorem check_valve_open (s : SCState) (hr mi sec wd : Int)
    (h : s.valve_on = true) :
    check_scheduled_run s hr mi sec wd = false := by
  simp [check_scheduled_run, h]

theorem sched_activation_valve_open (hr mi sec wd : Int) (s : SCState)
    (h : s.valve_on = true) :
    sched_activation hr mi sec wd s = s := by
  unfold sched_activation
  rw [check_valve_open s hr mi sec wd h]
  simp

theorem tick_valve_open_eq (hr mi sec wd now pulses : Int) (s : SCState)
    (h : s.valve_on = true) :
    tick hr mi sec wd now pulses s =
      stall_guard (calculate_flow s.k_factor pulses 1).1 now (accum_flow pulses s) := by
  unfold tick
  rw [sched_activation_valve_open hr mi sec wd (accum_flow pulses s) h]

theorem stall_guard_start (flow : Rat) (now : Int) (s : SCState)
    (hv : s.valve_on = true) (hs : s.scheduled_run_active = true)
    (hf : flow < 1 / 100) (ht : s.flow_stop_timer_start = 0) :
    stall_guard flow now s = { s with flow_stop_timer_start := now } := by
  unfold stall_guard
  rw [if_pos ⟨hv, hs⟩, if_pos hf, if_pos ht]

theorem stall_guard_close (flow : Rat) (now : Int) (s : SCState)
    (hv : s.valve_on = true) (hs : s.scheduled_run_active = true)
    (hf : flow < 1 / 100) (ht : s.flow_stop_timer_start ≠ 0)
    (hd : s.flow_stop_timeout ≤ now - s.flow_stop_timer_start) :
    stall_guard flow now s = { set_valve false s with flow_stop_timer_start := 0 } := by
  unfold stall_guard
  rw [if_pos ⟨hv, hs⟩, if_pos hf, if_neg ht, if_pos hd]

theorem stall_guard_wait (flow : Rat) (now : Int) (s : SCState)
    (hv : s.valve_on = true) (hs : s.scheduled_run_active = true)
    (hf : flow < 1 / 100) (ht : s.flow_stop_timer_start ≠ 0)
    (hd : now - s.flow_stop_timer_start < s.flow_stop_timeout) :
    stall_guard flow now s = s := by
  unfold stall_guard
  rw [if_pos ⟨hv, hs⟩, if_pos hf, if_neg ht, if_neg (not_le.mpr hd)]

theorem stall_guard_resume (flow : Rat) (now : Int) (s : SCState)
    (hv : s.valve_on = true) (hs : s.scheduled_run_active = true)
    (hf : 1 / 100 ≤ flow) :
    (stall_guard flow now s).flow_stop_timer_start = 0 ∧
    (stall_guard flow now s).valve_on = true := by
  unfold stall_guard
  rw [if_pos ⟨hv, hs⟩, if_neg (not_lt.mpr hf)]
  rcases eq_or_ne s.flow_stop_timer_start 0 with ht | ht
  · rw [if_neg (not_ne_iff.mpr ht)]
    exact ⟨ht, hv⟩
  · rw [if_pos ht]
    exact ⟨rfl, hv⟩

theorem stall_guard_not_scheduled (flow : Rat) (now : Int) (s : SCState)
    (hs : s.scheduled_run_active = false) :
    stall_guard flow now s = s := by
  unfold stall_guard
  simp [hs]

/-- C4: during ticks with the valve open and `scheduled_run_active` true,
a flow rate below 0.01 L/min starts the stall timer at `now` on first
observation; once running, a tick where `now - start >= FLOW_STOP_TIMEOUT`
closes the valve and clears the run; before the deadline the countdown
persists untouched; a single tick at or above the threshold resets the
timer to the zero sentinel while the valve stays open; and with
`scheduled_run_active` false a tick never closes an open valve. -/
theorem stall_autoclose_spec (hr mi sec wd now pulses : Int) (s : SCState) :
    (s.valve_on = true → s.scheduled_run_active = true →
      (calculate_flow s.k_factor pulses 1).1 < 1 / 100 →
      s.flow_stop_timer_start = 0 →
      (tick hr mi sec wd now pulses s).flow_stop_timer_start = now ∧
      (tick hr mi sec wd now pulses s).valve_on = true) ∧
    (s.valve_on = true → s.scheduled_run_active = true →
      (calculate_flow s.k_factor pulses 1).1 < 1 / 100 →
      s.flow_stop_timer_start ≠ 0 →
      s.flow_stop_timeout ≤ now - s.flow_stop_timer_start →
      (tick hr mi sec wd now pulses s).valve_on = false ∧
      (tick hr mi sec wd now pulses s).scheduled_run_active = false ∧
      (tick hr mi sec wd now pulses s).flow_stop_timer_start = 0) ∧
    (s.valve_on = true → s.scheduled_run_active = true →
      (calculate_flow s.k_factor pulses 1).1 < 1 / 100 →
      s.flow_stop_timer_start ≠ 0 →
      now - s.flow_stop_timer_start < s.flow_stop_timeout →
      (tick hr mi sec wd now pulses s).valve_on = true ∧
      (tick hr mi sec wd now pulses s).flow_stop_timer_start = s.flow_stop_timer_start) ∧
    (s.valve_on = true → s.scheduled_run_active = true →
      1 / 100 ≤ (calculate_flow s.k_factor pulses 1).1 →
      (tick hr mi sec wd now pulses s).flow_stop_timer_start = 0 ∧
      (tick hr mi sec wd now pulses s).valve_on = true) ∧
    (s.valve_on = true → s.scheduled_run_active = false →
      (tick hr mi sec wd now pulses s).valve_on = true) := by
  refine ⟨?_, ?_, ?_, ?_, ?_⟩
  · intro hv hs hf ht
    rw [tick_valve_open_eq hr mi sec wd now pulses s hv,
      stall_guard_start _ now (accum_flow pulses s) hv hs hf ht]
    exact ⟨rfl, hv⟩
  · intro hv hs hf ht hd
    rw [tick_valve_open_eq hr mi sec wd now pulses s hv,
      stall_guard_close _ now (accum_flow pulses s) hv hs hf ht hd]
    simp [set_valve_false_eq]
  · intro hv hs hf ht hd
    rw [tick_valve_open_eq hr mi sec wd now pulses s hv,
      stall_guard_wait _ now (accum_flow pulses s) hv hs hf ht hd]
    exact ⟨hv, rfl⟩
  · intro hv hs hf
    rw [tick_valve_open_eq hr mi sec wd now pulses s hv]
    exact stall_guard_resume _ now (accum_flow pulses s) hv hs hf
  · intro hv hs
    rw [tick_valve_open_eq hr mi sec wd now pulses s hv,
      stall_guard_not_scheduled _ now (accum_flow pulses s) hs]
    exact hv

/-- A scheduled fill in progress with no stall countdown running. -/
def zeroFlowOpenState : SCState :=
  { initState with
    valve_on := true
    scheduled_run_active := true }

/-- Witness for C4, one concrete tick for each conjunct: with
`FLOW_STOP_TIMEOUT = 5`, zero pulses on a fresh scheduled fill at
timestamp 100 starts the timer at 100; zero pulses on the stalled state
(timer 100) at timestamp 105 closes the valve; at timestamp 104 it stays
open with the timer untouched; 450 pulses (60 L/min) reset the timer; a
manually opened valve (no scheduled run) stays open on a zero-flow tick. -/
theorem stall_autoclose_spec_w :
    ((tick 10 0 1 0 100 0 zeroFlowOpenState).flow_stop_timer_start = 100 ∧
      (tick 10 0 1 0 100 0 zeroFlowOpenState).valve_on = true) ∧
    ((tick 10 0 1 0 105 0 stalledState).valve_on = false ∧
      (tick 10 0 1 0 105 0 stalledState).scheduled_run_active = false ∧
      (tick 10 0 1 0 105 0 stalledState).flow_stop_timer_start = 0) ∧
    ((tick 10 0 1 0 104 0 stalledState).valve_on = true ∧
      (tick 10 0 1 0 104 0 stalledState).flow_stop_timer_start =
        stalledState.flow_stop_timer_start) ∧
    ((tick 10 0 1 0 104 450 stalledState).flow_stop_timer_start = 0 ∧
      (tick 10 0 1 0 104 450 stalledState).valve_on = true) ∧
    (tick 10 0 1 0 100 0 valveOpenState).valve_on = true :=
  ⟨(stall_autoclose_spec 10 0 1 0 100 0 zeroFlowOpenState).1 rfl rfl
      (by norm_num [calculate_flow, zeroFlowOpenState, initState]) rfl,
    (stall_autoclose_spec 10 0 1 0 105 0 stalledState).2.1 rfl rfl
      (by norm_num [calculate_flow, stalledState, initState]) (by decide) (by decide),
    (stall_autoclose_spec 10 0 1 0 104 0 stalledState).2.2.1 rfl rfl
      (by norm_num [calculate_flow, stalledState, initState]) (by decide) (by decide),
    (stall_autoclose_spec 10 0 1 0 104 450 stalledState).2.2.2.1 rfl rfl
      (by norm_num [calculate_flow, stalledState, initState]),
    (stall_autoclose_spec 10 0 1 0 100 0 valveOpenState).2.2.2.2 rfl rfl⟩

/-- C9: `calculate_flow` is a pure function with
`liters_added = pulses / k_factor` and
`flow_rate_lpm = (pulses / elapsed) * (60 / k_factor)` when
`elapsed > 0` and `pulses > 0`, else `0`; at `pulses = 450`,
`k_factor = 450.0`, `elapsed = 1` it yields `(60.0, 1.0)`, and
`pulses = 0` yields `(0.0, 0.0)` for every `k_factor` and elapsed
time. -/
theorem calculate_flow_spec :
    calculate_flow 450 450 1 = (60, 1) ∧
    (∀ (k secs : Rat), calculate_flow k 0 secs = (0, 0)) ∧
    (∀ (k secs : Rat) (pulses : Int),
      (calculate_flow k pulses secs).2 = (pulses : Rat) / k ∧
      (calculate_flow k pulses secs).1 =
        if 0 < secs ∧ 0 < pulses then ((pulses : Rat) / secs) * (60 / k) else 0) := by
  refine ⟨by norm_num [calculate_flow], fun k secs => ?_, fun k secs pulses => ⟨rfl, rfl⟩⟩
  simp [calculate_flow]

/-!  Behaviour of `process_ble_command` on interlock-blocked and
out-of-range requests.  -/

/-- C2 counterexample: with the valve open, the remote command
`MOTOR ON` is refused by the interlock (the state is unchanged, the
motor stays off), yet `process_ble_command` returns `"OK"` — exactly the
same generic success response it returns for a legal `MOTOR ON` with the
valve closed, so the rejection is not distinguishable in the response. -/
theorem motor_on_while_valve_open_reports_ok :
    (process_ble_command (fun _ => none) "MOTOR ON" valveOpenState).1 = some "OK" ∧
    (process_ble_command (fun _ => none) "MOTOR ON" valveOpenState).2 = valveOpenState ∧
    (process_ble_command (fun _ => none) "MOTOR ON" initState).1 = some "OK" := by
  decide

/-- C2 amended: for every state with the valve open, processing
`MOTOR ON` leaves the state unchanged (the motor is not activated), but
the returned response is the generic success `"OK"`; the interlock
rejection is reported only on the console log, not to the BLE caller. -/
theorem motor_on_blocked_is_silent_ok (decodeJson : String → Option JVal)
    (s : SCState) (h : s.valve_on = true) :
    process_ble_command decodeJson "MOTOR ON" s = (some "OK", s) := by
  have e : process_ble_command decodeJson "MOTOR ON" s = (some "OK", set_motor true s) := rfl
  rw [e, set_motor_true_valve_open s h]

/-- Witness for the amended C2 at the concrete valve-open state. -/
theorem motor_on_blocked_is_silent_ok_w :
    valveOpenState.valve_on = true ∧
    process_ble_command (fun _ => none) "MOTOR ON" valveOpenState =
      (some "OK", valveOpenState) :=
  ⟨by decide, motor_on_blocked_is_silent_ok (fun _ => none) valveOpenState (by decide)⟩

/-- C3 counterexample: closing the valve by a direct `set_valve False`
call (the manual/remote path) does not reset the stall timer: from the
stalled state with `flow_stop_timer_start = 100`, the valve is closed
but the timer keeps its old value instead of the zero sentinel. -/
theorem manual_close_keeps_stall_timer :
    (set_valve false stalledState).valve_on = false ∧
    (set_valve false stalledState).flow_stop_timer_start = 100 := by
  decide

/-- C3 amended: `set_valve` itself never touches the stall timer (a
manual or remote valve close leaves it unchanged, clearing only
`scheduled_run_active`); the timer is reset to the zero sentinel by the
control loop when non-zero flow (at least 0.01 L/min) is observed while
the valve is open with a scheduled run active, and by the stall
auto-close path when it closes the valve. -/
theorem stall_timer_reset_paths (s : SCState) (b : Bool) (flow : Rat) (now : Int) :
    ((set_valve b s).flow_stop_timer_start = s.flow_stop_timer_start) ∧
    (s.valve_on = true → s.scheduled_run_active = true → 1 / 100 ≤ flow →
      (stall_guard flow now s).flow_stop_timer_start = 0) ∧
    (s.valve_on = true → s.scheduled_run_active = true → flow < 1 / 100 →
      s.flow_stop_timer_start ≠ 0 →
      s.flow_stop_timeout ≤ now - s.flow_stop_timer_start →
      (stall_guard flow now s).valve_on = false ∧
      (stall_guard flow now s).flow_stop_timer_start = 0) := by
  refine ⟨?_, ?_, ?_⟩
  · cases b
    · rw [set_valve_false_eq]
    · rw [set_valve_true_eq]
  · intro hv hs hf
    exact (stall_guard_resume flow now s hv hs hf).1
  · intro hv hs hf ht hd
    rw [stall_guard_close flow now s hv hs hf ht hd]
    simp [set_valve_false_eq]

/-- Witness for the amended C3: concrete closes and resets on the
stalled state. -/
theorem stall_timer_reset_paths_w :
    ((set_valve false stalledState).flow_stop_timer_start =
      stalledState.flow_stop_timer_start) ∧
    ((stall_guard 60 104 stalledState).flow_stop_timer_start = 0) ∧
    ((stall_guard 0 105 stalledState).valve_on = false ∧
      (stall_guard 0 105 stalledState).flow_stop_timer_start = 0) :=
  ⟨(stall_timer_reset_paths stalledState false 60 104).1,
    (stall_timer_reset_paths stalledState false 60 104).2.1 rfl rfl (by norm_num),
    (stall_timer_reset_paths stalledState false 0 105).2.2 rfl rfl (by norm_num)
      (by decide) (by decide)⟩

/-- A `ujson.loads` behaviour for the payload `[[25, 99]]`: the decoder
returns the corresponding JSON array (as CPython/MicroPython json
would). -/
def decodeJson2599 : String → Option JVal := fun str =>
  if str = "[[25, 99]]" then some (JVal.arr [JVal.arr [JVal.int 25, JVal.int 99]]) else none

/-- C8 (evaluation at the failing input): the `SET_SCHEDULE` branch of
`process_ble_command` validates only the shape of the decoded JSON
(a list of 2-element integer lists) and performs no range check, so the
command `SET_SCHEDULE WEEKDAY [[25, 99]]` — hour 25, minute 99, both out
of range — is accepted: the stored weekday table becomes `[[25, 99]]`
and the response is the success message, not an error. -/
theorem set_schedule_out_of_range_accepted :
    process_ble_command decodeJson2599 "SET_SCHEDULE WEEKDAY [[25, 99]]" initState =
      (some "OK: Horario WEEKDAY actualizado y guardado.",
        { initState with weekday_schedule := [[25, 99]] }) := by
  decide

end WaterCtl
